import Mathlib

/-!
Verification of the ride-lifecycle logic of the kilocode driver application.

The development shallowly embeds the data model (ride rows, driver rows,
notification rows, fare-matrix rows) and the Ride Lifecycle Controller
operations of the two `RideProvider` context implementations, together with
the fare computations of `completeRide` and of the scheduled-booking
completion handler `handleCompleteTrip` in `TripCompletionModal.tsx`.

Store interaction is modelled explicitly: every database call either throws
(an exception), returns an error result, or returns data taken from an
explicit `World` value holding the relational tables.  A schedule of
`CallOut` outcomes drives which of the three happens at each call site, so
that the `try`/`catch` structure of the source can be reproduced and
reasoned about faithfully.
-/

/-- Status enumeration of a ride row (`rides.status`). -/
inductive RideStatus where
  | requested
  | accepted
  | driver_arrived
  | in_progress
  | completed
  | cancelled
deriving DecidableEq, Repr

/-- A row of the `rides` table, restricted to the columns the controller
reads or writes. -/
structure RideRow where
  id : Nat
  customer_id : Nat := 0
  driver_id : Option Nat := none
  status : RideStatus := RideStatus.requested
  pickup_otp : Option String := none
  drop_otp : Option String := none
  fare_amount : Option ℚ := none
  distance_km : Option ℚ := none
  duration_minutes : Option ℚ := none
  payment_status : Option String := none
  booking_type : String := "regular"
  vehicle_type : String := "sedan"
  rental_hours : Option ℚ := none
  cancellation_reason : Option String := none
  cancelled_by : Option Nat := none
  updated_at : Nat := 0
deriving DecidableEq, Repr

/-- A row of the `drivers` table. -/
structure DriverRow where
  id : Nat
  user_id : Nat := 0
  status : String := "online"
  is_verified : Bool := true
  total_rides : Option Nat := none
deriving DecidableEq, Repr

/-- A row of the `notifications` table; `ride_id` models `data.ride_id`. -/
structure NotificationRow where
  user_id : Nat
  ntype : String
  nstatus : String
  ride_id : Option Nat
  created_at : Nat := 0
deriving DecidableEq, Repr

/-- A row of the `fare_matrix` table as read by `completeRide`. -/
structure FareMatrixRow where
  booking_type : String
  vehicle_type : String
  is_active : Bool := true
  base_fare : ℚ := 0
  per_km_rate : ℚ := 0
  per_minute_rate : Option ℚ := none
  platform_fee_percent : ℚ := 0
  minimum_fare : ℚ := 0
  hourly_rate : Option ℚ := none
deriving DecidableEq, Repr

/-- A row of the `rental_fares` table as read by `handleCompleteTrip`. -/
structure RentalFareRow where
  hourly_rate : Option ℚ := none
  driver_allowance_per_day : Option ℚ := none
  overtime_rate : Option ℚ := none
  km_limit_per_hour : Option ℚ := none
  extra_km_rate : Option ℚ := none
deriving DecidableEq, Repr

/-- The relational store: the tables touched by the controller. -/
structure World where
  rides : List RideRow := []
  drivers : List DriverRow := []
  notifications : List NotificationRow := []
  fares : List FareMatrixRow := []
deriving DecidableEq, Repr

/-- The in-memory driver object held by the auth context, with the joined
user and vehicle fields that `validateCompleteDriverProfile` inspects. -/
structure DriverInfo where
  id : Nat
  user_id : Nat
  is_verified : Bool := true
  user_full_name : Option String := some "d"
  user_phone : Option String := some "p"
  has_vehicle : Bool := true
  vehicle_make : Option String := some "m"
  vehicle_model : Option String := some "m"
  vehicle_registration : Option String := some "r"
  total_rides : Option Nat := none
deriving DecidableEq, Repr

/-- JavaScript `x || d` on a nullable numeric field: `null` and `0` are
falsy and give the default. -/
def jsOr (x : Option ℚ) (d : ℚ) : ℚ :=
  match x with
  | none => d
  | some v => if v = 0 then d else v

/-- Row lookup mirroring `.from('rides').select().eq('id', rideId)` followed
by `.single()` / `.maybeSingle()`. -/
def findRide (w : World) (rid : Nat) : Option RideRow :=
  w.rides.find? (fun r => r.id == rid)

/-- Fare-matrix lookup of `completeRide`:
`.eq('booking_type', bt).eq('vehicle_type', vt).eq('is_active', true).single()`. -/
def findFare (w : World) (bt vt : String) : Option FareMatrixRow :=
  w.fares.find? (fun f => f.booking_type == bt && f.vehicle_type == vt && f.is_active)

/-- A guarded row update: applies `f` to every ride row satisfying `guard`
and also returns the list of affected rows (what the store reports back
through `.select()`). -/
def updateRideRows (w : World) (guard : RideRow → Bool) (f : RideRow → RideRow) :
    World × List RideRow :=
  ({ w with rides := w.rides.map (fun r => if guard r then f r else r) },
   (w.rides.filter guard).map f)

/-- A guarded update of the `drivers` table. -/
def updateDriverRows (w : World) (guard : DriverRow → Bool) (f : DriverRow → DriverRow) :
    World × List DriverRow :=
  ({ w with drivers := w.drivers.map (fun d => if guard d then f d else d) },
   (w.drivers.filter guard).map f)

/-! ### Fare computations -/

/-- Rental-branch fare of `completeRide` (rides table):
`base_fare + rentalHours*hourlyRate + platform fee`, with the JavaScript
defaults `rideData.rental_hours || 4` and `fareMatrix.hourly_rate || 150`.
Note there is no overtime or extra-km component on this path. -/
def rentalFareCR (fm : FareMatrixRow) (rideRentalHours : Option ℚ) : ℚ :=
  let rentalHours := jsOr rideRentalHours 4
  let hourlyRate := jsOr fm.hourly_rate 150
  let hourlyFare := rentalHours * hourlyRate
  fm.base_fare + hourlyFare + hourlyFare * fm.platform_fee_percent / 100

/-- Regular/airport/outstation branch fare of `completeRide`:
`max(subtotal + subtotal*pct/100, minimum_fare)` with
`subtotal = base + distance*perKm + duration*(per_minute_rate || 0)`. -/
def regularFareCR (fm : FareMatrixRow) (distance duration : ℚ) : ℚ :=
  let subtotal := fm.base_fare + distance * fm.per_km_rate
      + duration * jsOr fm.per_minute_rate 0
  let platformFee := subtotal * fm.platform_fee_percent / 100
  max (subtotal + platformFee) fm.minimum_fare

/-- Rental fare of the scheduled-booking completion handler
`handleCompleteTrip` in `TripCompletionModal.tsx`: hourly fare plus
overtime, extra kilometres and driver allowance; the breakdown's
`base_fare` is the literal `0`. -/
def rentalFareTC (fm : RentalFareRow) (rentalHoursOpt : Option ℚ)
    (actualDuration tripDistance : ℚ) : ℚ :=
  let rentalHours := jsOr rentalHoursOpt 4
  let hourlyRate := jsOr fm.hourly_rate 150
  let hourlyFare := rentalHours * hourlyRate
  let driverAllowance := jsOr fm.driver_allowance_per_day 0
  let actualHours : ℚ := (Int.ceil (actualDuration / 60) : ℤ)
  let overtimeHours := max 0 (actualHours - rentalHours)
  let overtimeFare := overtimeHours * jsOr fm.overtime_rate (hourlyRate * (12 / 10))
  let includedKm := rentalHours * jsOr fm.km_limit_per_hour 10
  let extraKm := max 0 (tripDistance - includedKm)
  let extraKmFare := extraKm * jsOr fm.extra_km_rate 8
  hourlyFare + overtimeFare + extraKmFare + driverAllowance

/-- Modelled from the spec: the rental total claimed in the specification,
`base + hours*hourlyRate + overtimeHours*overtimeRate + extraKm*extraKmRate
+ driverAllowance` with `overtimeHours = max(0, ceil(actualMinutes/60) -
bookedHours)` and `extraKm = max(0, actualDistance -
bookedHours*kmLimitPerHour)`.  Used only to compare the specification's
formula against the code's fare computations. -/
def specRentalTotal (base hourlyRate overtimeRate extraKmRate kmLimitPerHour
    driverAllowance bookedHours actualMinutes actualDistance : ℚ) : ℚ :=
  let overtimeHours := max 0 (((Int.ceil (actualMinutes / 60) : ℤ) : ℚ) - bookedHours)
  let extraKm := max 0 (actualDistance - bookedHours * kmLimitPerHour)
  base + bookedHours * hourlyRate + overtimeHours * overtimeRate
    + extraKm * extraKmRate + driverAllowance

/-- OTP value generation: `Math.floor(1000 + r * 9000)` for a random draw
`r` from `[0, 1)`. -/
def genOtpVal (r : ℚ) : ℤ :=
  Int.floor ((1000 : ℚ) + r * 9000)

/-! ### Store-call outcome machinery

Each `await supabaseAdmin...` call site either throws an exception, returns
an error result, or succeeds.  A schedule (`List CallOut`) fixes the outcome
of each call in program order; an exhausted schedule means success. -/

/-- Outcome of one store call. -/
inductive CallOut where
  | ok
  | errRes
  | thrown
deriving DecidableEq, Repr

/-- Consume the next scheduled call outcome (default: success). -/
def takeOut (s : List CallOut) : CallOut × List CallOut :=
  match s with
  | [] => (CallOut.ok, [])
  | c :: cs => (c, cs)

/-- The `try { body } catch { return fb }` wrapper of every controller
operation: an exception escaping the body is converted to the fallback
result, the store state at the time of the exception being kept. -/
def catchWith {α : Type} (x : Except Unit α × World) (fb : α) : Except Unit α × World :=
  match x.1 with
  | Except.error _ => (Except.ok fb, x.2)
  | Except.ok a => (Except.ok a, x.2)

/-- The `validateCompleteDriverProfile` helper of the part_002 provider:
verified flag, user name/phone, and complete vehicle data. -/
def validateCompleteDriverProfile (d : DriverInfo) : Bool :=
  d.is_verified && d.user_full_name.isSome && d.user_phone.isSome
    && d.has_vehicle && d.vehicle_make.isSome && d.vehicle_model.isSome
    && d.vehicle_registration.isSome

/-- The `startLocationSharing` helper: upsert into `live_locations`, with
insert and update fallbacks; its own `try`/`catch` swallows exceptions and
reports `false`.  `hasLoc` models `driver?.user_id && currentLocation`. -/
def startLocationSharing (hasLoc : Bool) (s : List CallOut) : Bool × List CallOut :=
  if !hasLoc then (false, s)
  else
    let (c1, s1) := takeOut s
    match c1 with
    | CallOut.thrown => (false, s1)
    | CallOut.ok => (true, s1)
    | CallOut.errRes =>
      let (c2, s2) := takeOut s1
      match c2 with
      | CallOut.thrown => (false, s2)
      | CallOut.ok => (true, s2)
      | CallOut.errRes =>
        let (c3, s3) := takeOut s2
        match c3 with
        | CallOut.thrown => (false, s3)
        | CallOut.ok => (true, s3)
        | CallOut.errRes => (false, s3)

/-! ### acceptRide (part_002 provider) -/

/-- The conditional-update guard of `acceptRide`:
`.eq('id', rideId).eq('status', 'requested').is('driver_id', null)`. -/
def acceptGuard (rid : Nat) (r : RideRow) : Bool :=
  r.id == rid && r.status == RideStatus.requested && r.driver_id == none

/-- The column assignment of `acceptRide`'s update:
`status := 'accepted', driver_id := driver.id`. -/
def acceptUpdate (did : Nat) (now : Nat) (r : RideRow) : RideRow :=
  { r with status := RideStatus.accepted, driver_id := some did, updated_at := now }

/-- Body of `acceptRide` inside its `try`: three debug reads, profile
validation, location sharing, the guarded atomic ride update with
`.single()`, and the non-critical driver-status update wrapped in an inner
`try`/`catch`. -/
def acceptRideBody (dr : DriverInfo) (hasLoc : Bool) (rid now : Nat)
    (w : World) (s : List CallOut) : Except Unit Bool × World :=
  let (c1, s1) := takeOut s
  if c1 == CallOut.thrown then (Except.error (), w) else
  let (c2, s2) := takeOut s1
  if c2 == CallOut.thrown then (Except.error (), w) else
  let (c3, s3) := takeOut s2
  if c3 == CallOut.thrown then (Except.error (), w) else
  if !validateCompleteDriverProfile dr then (Except.ok false, w) else
  if !dr.is_verified then (Except.ok false, w) else
  if dr.user_full_name == none || dr.user_phone == none then (Except.ok false, w) else
  let (locOk, s4) := startLocationSharing hasLoc s3
  if !locOk then (Except.ok false, w) else
  let (c4, s5) := takeOut s4
  match c4 with
  | CallOut.thrown => (Except.error (), w)
  | CallOut.errRes => (Except.ok false, w)
  | CallOut.ok =>
    let (w1, matched) := updateRideRows w (acceptGuard rid) (acceptUpdate dr.id now)
    match matched with
    | [_] =>
      let (c5, _) := takeOut s5
      match c5 with
      | CallOut.thrown => (Except.ok true, w1)
      | CallOut.errRes => (Except.ok true, w1)
      | CallOut.ok =>
        let w2 := (updateDriverRows w1 (fun x => x.id == dr.id)
          (fun x => { x with status := "busy" })).1
        (Except.ok true, w2)
    | _ => (Except.ok false, w1)

/-- `acceptRide(rideId)`: early `return false` without a driver, otherwise
the body under the operation's `try`/`catch`. -/
def acceptRide (d : Option DriverInfo) (hasLoc : Bool) (rid now : Nat)
    (w : World) (s : List CallOut) : Except Unit Bool × World :=
  match d with
  | none => (Except.ok false, w)
  | some dr => catchWith (acceptRideBody dr hasLoc rid now w s) false

/-! ### declineRide (part_002 provider) -/

/-- The notification update of `declineRide`: set `status := 'cancelled'`
on every `ride_request` notification of this user whose data carries the
ride id. -/
def markNotifsCancelled (w : World) (uid rid : Nat) : World :=
  { w with notifications := w.notifications.map (fun n =>
      if n.user_id == uid && n.ntype == "ride_request" && n.ride_id == some rid
      then { n with nstatus := "cancelled" } else n) }

/-- The decline marker inserted by `declineRide`: a `ride_declined`
notification keyed by user and ride. -/
def insertDeclineMarker (w : World) (uid rid now : Nat) : World :=
  { w with notifications := w.notifications ++
      [{ user_id := uid, ntype := "ride_declined", nstatus := "read",
         ride_id := some rid, created_at := now }] }

/-- Body of `declineRide` inside its `try`: both store writes have their
error results merely logged; the operation reports `true` regardless. -/
def declineRideBody (uid rid now : Nat) (w : World) (s : List CallOut) :
    Except Unit Bool × World :=
  let (c1, s1) := takeOut s
  match c1 with
  | CallOut.thrown => (Except.error (), w)
  | c1' =>
    let w1 := if c1' == CallOut.ok then markNotifsCancelled w uid rid else w
    let (c2, _) := takeOut s1
    match c2 with
    | CallOut.thrown => (Except.error (), w1)
    | CallOut.errRes => (Except.ok true, w1)
    | CallOut.ok => (Except.ok true, insertDeclineMarker w1 uid rid now)

/-- `declineRide(rideId)`: early `return false` without a driver user id,
otherwise the body under the operation's `try`/`catch`. -/
def declineRide (uid : Option Nat) (rid now : Nat) (w : World) (s : List CallOut) :
    Except Unit Bool × World :=
  match uid with
  | none => (Except.ok false, w)
  | some u => catchWith (declineRideBody u rid now w s) false

/-! ### markDriverArrived, startRide (part_002 provider) -/

/-- Body of `markDriverArrived`: one unconditional update of the ride to
`driver_arrived` through `.single()`. -/
def markDriverArrivedBody (rid now : Nat) (w : World) (s : List CallOut) :
    Except Unit Bool × World :=
  let (c1, _) := takeOut s
  match c1 with
  | CallOut.thrown => (Except.error (), w)
  | CallOut.errRes => (Except.ok false, w)
  | CallOut.ok =>
    let (w1, matched) := updateRideRows w (fun r => r.id == rid)
      (fun r => { r with status := RideStatus.driver_arrived, updated_at := now })
    match matched with
    | [_] => (Except.ok true, w1)
    | _ => (Except.ok false, w1)

/-- `markDriverArrived(rideId)` with its `try`/`catch`. -/
def markDriverArrived (rid now : Nat) (w : World) (s : List CallOut) :
    Except Unit Bool × World :=
  catchWith (markDriverArrivedBody rid now w s) false

/-- Body of `startRide`: one unconditional update of the ride to
`in_progress` through `.single()`. -/
def startRideBody (rid now : Nat) (w : World) (s : List CallOut) :
    Except Unit Bool × World :=
  let (c1, _) := takeOut s
  match c1 with
  | CallOut.thrown => (Except.error (), w)
  | CallOut.errRes => (Except.ok false, w)
  | CallOut.ok =>
    let (w1, matched) := updateRideRows w (fun r => r.id == rid)
      (fun r => { r with status := RideStatus.in_progress, updated_at := now })
    match matched with
    | [_] => (Except.ok true, w1)
    | _ => (Except.ok false, w1)

/-- `startRide(rideId)` with its `try`/`catch`. -/
def startRide (rid now : Nat) (w : World) (s : List CallOut) :
    Except Unit Bool × World :=
  catchWith (startRideBody rid now w s) false

/-! ### OTP generation and verification -/

/-- Body of `generatePickupOTP`: draw the code, write it to
`rides.pickup_otp`, return it; a store error result yields `null`. -/
def generatePickupOTPBody (rid : Nat) (r : ℚ) (now : Nat) (w : World)
    (s : List CallOut) : Except Unit (Option String) × World :=
  let otp := toString (genOtpVal r)
  let (c1, _) := takeOut s
  match c1 with
  | CallOut.thrown => (Except.error (), w)
  | CallOut.errRes => (Except.ok none, w)
  | CallOut.ok =>
    let (w1, _) := updateRideRows w (fun x => x.id == rid)
      (fun x => { x with pickup_otp := some otp, updated_at := now })
    (Except.ok (some otp), w1)

/-- `generatePickupOTP(rideId)` with its `try`/`catch`. -/
def generatePickupOTP (rid : Nat) (r : ℚ) (now : Nat) (w : World)
    (s : List CallOut) : Except Unit (Option String) × World :=
  catchWith (generatePickupOTPBody rid r now w s) none

/-- Body of `generateDropOTP`: like pickup generation but on
`rides.drop_otp`. -/
def generateDropOTPBody (rid : Nat) (r : ℚ) (now : Nat) (w : World)
    (s : List CallOut) : Except Unit (Option String) × World :=
  let otp := toString (genOtpVal r)
  let (c1, _) := takeOut s
  match c1 with
  | CallOut.thrown => (Except.error (), w)
  | CallOut.errRes => (Except.ok none, w)
  | CallOut.ok =>
    let (w1, _) := updateRideRows w (fun x => x.id == rid)
      (fun x => { x with drop_otp := some otp, updated_at := now })
    (Except.ok (some otp), w1)

/-- `generateDropOTP(rideId)` with its `try`/`catch`. -/
def generateDropOTP (rid : Nat) (r : ℚ) (now : Nat) (w : World)
    (s : List CallOut) : Except Unit (Option String) × World :=
  catchWith (generateDropOTPBody rid r now w s) none

/-- Body of `verifyPickupOTP` (part_002): fetch the ride's `pickup_otp`,
compare with strict equality (a `null` stored code never equals the
supplied string), and on match update the ride to `in_progress` clearing
the code.  No status precondition is checked anywhere. -/
def verifyPickupOTPBody (rid : Nat) (otp : String) (now : Nat) (w : World)
    (s : List CallOut) : Except Unit Bool × World :=
  let (c1, s1) := takeOut s
  match c1 with
  | CallOut.thrown => (Except.error (), w)
  | CallOut.errRes => (Except.ok false, w)
  | CallOut.ok =>
    match findRide w rid with
    | none => (Except.ok false, w)
    | some ride =>
      if ride.pickup_otp != some otp then (Except.ok false, w)
      else
        let (c2, _) := takeOut s1
        match c2 with
        | CallOut.thrown => (Except.error (), w)
        | CallOut.errRes => (Except.ok false, w)
        | CallOut.ok =>
          let (w1, matched) := updateRideRows w (fun x => x.id == rid)
            (fun x => { x with status := RideStatus.in_progress,
                               pickup_otp := none, updated_at := now })
          match matched with
          | [_] => (Except.ok true, w1)
          | _ => (Except.ok false, w1)

/-- `verifyPickupOTP(rideId, otp)` with its `try`/`catch`. -/
def verifyPickupOTP (rid : Nat) (otp : String) (now : Nat) (w : World)
    (s : List CallOut) : Except Unit Bool × World :=
  catchWith (verifyPickupOTPBody rid otp now w s) false

/-! ### completeRide, cancelRide (part_002 provider) -/

/-- Result of `completeRide`: the success flag and the
`completionData.fareBreakdown.total_fare` it returns. -/
structure CompleteResult where
  success : Bool
  total_fare : Option ℚ := none
deriving DecidableEq, Repr

/-- The failed-completion result `{ success: false }`. -/
def completeFail : CompleteResult := { success := false }

/-- The `actualDistance` fallback of `completeRide`:
`totalDistanceTraveled > 0 ? totalDistanceTraveled : 5.2`. -/
def actualDistanceOf (totalDist : ℚ) : ℚ :=
  if totalDist > 0 then totalDist else 26 / 5

/-- The `actualDuration` fallback of `completeRide`: the tracked elapsed
minutes when a trip start time exists, else 25. -/
def actualDurationOf (tripStart : Bool) (elapsedMin : ℚ) : ℚ :=
  if tripStart then elapsedMin else 25

/-- The booking-type dispatch of `completeRide`'s fare computation. -/
def totalFareOf (fm : FareMatrixRow) (rideData : RideRow) (tripStart : Bool)
    (elapsedMin totalDist : ℚ) : ℚ :=
  if rideData.booking_type == "rental"
  then rentalFareCR fm rideData.rental_hours
  else regularFareCR fm (actualDistanceOf totalDist) (actualDurationOf tripStart elapsedMin)

/-- The ride-row assignment of `completeRide`'s update: status `completed`,
fare and actuals written, payment completed — `drop_otp` is not among the
assigned columns. -/
def completeUpdate (totalFare actualDistance actualDuration : ℚ) (now : Nat)
    (r : RideRow) : RideRow :=
  { r with status := RideStatus.completed, fare_amount := some totalFare,
           distance_km := some actualDistance,
           duration_minutes := some actualDuration,
           payment_status := some "completed", updated_at := now }

/-- Body of `completeRide` inside its `try`: compute trip actuals (with the
25-minute and 5.2-km fallbacks), fetch the ride and its fare matrix,
compute the fare by booking type, update the ride, and set the driver back
to `online` incrementing `total_rides` (this last call's error result is
ignored, but an exception there still escapes to the outer catch). -/
def completeRideBody (d : Option DriverInfo) (rid : Nat) (tripStart : Bool)
    (elapsedMin totalDist : ℚ) (now : Nat) (w : World) (s : List CallOut) :
    Except Unit CompleteResult × World :=
  let actualDuration := actualDurationOf tripStart elapsedMin
  let actualDistance := actualDistanceOf totalDist
  let (c1, s1) := takeOut s
  match c1 with
  | CallOut.thrown => (Except.error (), w)
  | CallOut.errRes => (Except.ok completeFail, w)
  | CallOut.ok =>
    match findRide w rid with
    | none => (Except.ok completeFail, w)
    | some rideData =>
      let (c2, s2) := takeOut s1
      match c2 with
      | CallOut.thrown => (Except.error (), w)
      | CallOut.errRes => (Except.ok completeFail, w)
      | CallOut.ok =>
        match findFare w rideData.booking_type rideData.vehicle_type with
        | none => (Except.ok completeFail, w)
        | some fm =>
          let totalFare := totalFareOf fm rideData tripStart elapsedMin totalDist
          let (c3, s3) := takeOut s2
          match c3 with
          | CallOut.thrown => (Except.error (), w)
          | CallOut.errRes => (Except.ok completeFail, w)
          | CallOut.ok =>
            let (w1, matched) := updateRideRows w (fun x => x.id == rid)
              (completeUpdate totalFare actualDistance actualDuration now)
            match matched with
            | [_] =>
              match d with
              | none => (Except.ok { success := true, total_fare := some totalFare }, w1)
              | some dr =>
                let (c4, _) := takeOut s3
                match c4 with
                | CallOut.thrown => (Except.error (), w1)
                | CallOut.errRes =>
                  (Except.ok { success := true, total_fare := some totalFare }, w1)
                | CallOut.ok =>
                  let w2 := (updateDriverRows w1 (fun x => x.id == dr.id)
                    (fun x => { x with status := "online",
                                       total_rides := some (dr.total_rides.getD 0 + 1) })).1
                  (Except.ok { success := true, total_fare := some totalFare }, w2)
            | _ => (Except.ok completeFail, w1)

/-- `completeRide(rideId)` with its `try`/`catch`. -/
def completeRide (d : Option DriverInfo) (rid : Nat) (tripStart : Bool)
    (elapsedMin totalDist : ℚ) (now : Nat) (w : World) (s : List CallOut) :
    Except Unit CompleteResult × World :=
  catchWith (completeRideBody d rid tripStart elapsedMin totalDist now w s) completeFail

/-- Body of `cancelRide`: update the ride to `cancelled` recording reason
and canceller, then set the driver back online (a plain await inside the
same `try`, so an exception there reaches the outer catch). -/
def cancelRideBody (d : Option DriverInfo) (rid : Nat) (reason : String)
    (now : Nat) (w : World) (s : List CallOut) : Except Unit Bool × World :=
  let (c1, s1) := takeOut s
  match c1 with
  | CallOut.thrown => (Except.error (), w)
  | CallOut.errRes => (Except.ok false, w)
  | CallOut.ok =>
    let (w1, matched) := updateRideRows w (fun x => x.id == rid)
      (fun x => { x with status := RideStatus.cancelled,
                         cancelled_by := (d.map DriverInfo.user_id),
                         cancellation_reason := some reason, updated_at := now })
    match matched with
    | [_] =>
      match d with
      | none => (Except.ok true, w1)
      | some dr =>
        let (c2, _) := takeOut s1
        match c2 with
        | CallOut.thrown => (Except.error (), w1)
        | CallOut.errRes => (Except.ok true, w1)
        | CallOut.ok =>
          let w2 := (updateDriverRows w1 (fun x => x.id == dr.id)
            (fun x => { x with status := "online" })).1
          (Except.ok true, w2)
    | _ => (Except.ok false, w1)

/-- `cancelRide(rideId, reason)` with its `try`/`catch`. -/
def cancelRide (d : Option DriverInfo) (rid : Nat) (reason : String)
    (now : Nat) (w : World) (s : List CallOut) : Except Unit Bool × World :=
  catchWith (cancelRideBody d rid reason now w s) false

/-! ### Reconciliation: loadAssignedRide, loadPendingRides,
processNewNotifications -/

/-- Outcome of the assigned-ride read during reconciliation: a thrown
exception, an error result, or data (the most recent active ride, if
any). -/
inductive FetchOutcome where
  | thrown
  | errRes (code : String)
  | okData (d : Option RideRow)
deriving DecidableEq, Repr

/-- `loadAssignedRide` of the part_001 provider acting on the locally held
current-ride snapshot: an error result triggers a bare `return` and the
`catch` block only logs, so on both failure modes the prior snapshot is
kept; successful data replaces it. -/
def loadAssignedRideV1 (prev : Option RideRow) (out : FetchOutcome) : Option RideRow :=
  match out with
  | FetchOutcome.thrown => prev
  | FetchOutcome.errRes _ => prev
  | FetchOutcome.okData d => d

/-- `loadAssignedRide` of the part_002 provider acting on the locally held
current-ride snapshot: a non-`PGRST116` error result calls
`onCurrentRideUpdate(null)`, a `PGRST116` error falls through with no data,
and the `catch` block also calls `onCurrentRideUpdate(null)`. -/
def loadAssignedRideV2 (prev : Option RideRow) (out : FetchOutcome) : Option RideRow :=
  match out with
  | FetchOutcome.thrown => none
  | FetchOutcome.errRes code => if code == "PGRST116" then none else none
  | FetchOutcome.okData d => d

/-- `data->>ride_id` membership test used by the declined-rides query. -/
def rideIdIn (ids : List Nat) (n : NotificationRow) : Bool :=
  match n.ride_id with
  | some i => ids.contains i
  | none => false

/-- `loadPendingRides` of the part_002 provider, returning the ride ids it
passes to `onRideUpdate`: unread `ride_request` notifications (at most 10)
give candidate ride ids; ids with a `ride_declined` marker are removed;
the surviving ids are kept only for rides still `requested` and
unassigned. -/
def loadPendingRides (w : World) (uid : Nat) : List Nat :=
  let notifs := (w.notifications.filter (fun n =>
      n.user_id == uid && n.ntype == "ride_request" && n.nstatus == "unread")).take 10
  if notifs.isEmpty then []
  else
    let rideIds := notifs.filterMap (fun n => n.ride_id)
    if rideIds.isEmpty then []
    else
      let declinedIds := (w.notifications.filter (fun n =>
          n.user_id == uid && n.ntype == "ride_declined" && rideIdIn rideIds n)).filterMap
          (fun n => n.ride_id)
      let availableIds := rideIds.filter (fun i => !declinedIds.contains i)
      if availableIds.isEmpty then []
      else
        (w.rides.filter (fun r =>
            availableIds.contains r.id && r.status == RideStatus.requested
              && r.driver_id == none)).map RideRow.id

/-- `processNewNotifications` of the part_002 provider (the missed-
notification reconciliation path), returning the updated pending ride ids:
it fetches the still-`requested`, unassigned rides referenced by the
incoming notifications and merges them into the pending list, deduplicating
against the current list only — no `ride_declined` markers are
consulted. -/
def processNewNotifications (w : World) (incoming : List NotificationRow)
    (prevPending : List Nat) : List Nat :=
  let rideIds := incoming.filterMap (fun n => n.ride_id)
  if rideIds.isEmpty then prevPending
  else
    let rides := w.rides.filter (fun r =>
        rideIds.contains r.id && r.status == RideStatus.requested
          && r.driver_id == none)
    if rides.isEmpty then prevPending
    else prevPending ++ (rides.map RideRow.id).filter (fun i => !prevPending.contains i)

/-- A `ride_declined` decline marker for user `uid` and ride `rid` is
present in the store. -/
def hasDeclineMarker (w : World) (uid rid : Nat) : Bool :=
  w.notifications.any (fun n =>
    n.user_id == uid && n.ntype == "ride_declined" && n.ride_id == some rid)

/-! ### Small observation helpers -/

/-- The status of the ride `rid` in the store, when the ride exists. -/
def rideStatusOf (w : World) (rid : Nat) : Option RideStatus :=
  (findRide w rid).map RideRow.status

/-- The stored pickup OTP of ride `rid`, when the ride exists. -/
def ridePickupOtpOf (w : World) (rid : Nat) : Option (Option String) :=
  (findRide w rid).map RideRow.pickup_otp

/-- The stored drop OTP of ride `rid`, when the ride exists. -/
def rideDropOtpOf (w : World) (rid : Nat) : Option (Option String) :=
  (findRide w rid).map RideRow.drop_otp

/-- The status of the driver row `did`, when it exists. -/
def driverStatusOf (w : World) (did : Nat) : Option String :=
  (w.drivers.find? (fun d => d.id == did)).map DriverRow.status

/-- Every ride id occurs at most once in the store (the primary-key
invariant of the `rides` table, connecting `.single()` to `find?`). -/
def uniqueRideIdsIn (w : World) : Prop :=
  (w.rides.map RideRow.id).Nodup

/-! ### Concrete example data used by witnesses and counterexamples -/

/-- A driver with a complete, verified profile. -/
def dAlice : DriverInfo := { id := 5, user_id := 6 }

/-- A ride already claimed by another driver. -/
def rideTaken : RideRow :=
  { id := 1, status := RideStatus.accepted, driver_id := some 9 }

/-- Store holding only the already-claimed ride. -/
def wTaken : World := { rides := [rideTaken] }

/-- A ride still in `accepted` (driver not yet arrived) carrying a pickup
OTP. -/
def rideOtpAccepted : RideRow :=
  { id := 1, status := RideStatus.accepted, driver_id := some 5,
    pickup_otp := some "1234" }

/-- Store holding only `rideOtpAccepted`. -/
def wOtpAccepted : World := { rides := [rideOtpAccepted] }

/-- An active regular fare-matrix row. -/
def fmRegular : FareMatrixRow :=
  { booking_type := "regular", vehicle_type := "sedan", base_fare := 50,
    per_km_rate := 10, per_minute_rate := some 0, platform_fee_percent := 0,
    minimum_fare := 100 }

/-- An in-progress regular ride holding an unconsumed drop OTP. -/
def rideInProgress : RideRow :=
  { id := 1, status := RideStatus.in_progress, driver_id := some 5,
    drop_otp := some "5678" }

/-- Store for the completion scenario: the in-progress ride, its busy
driver, and the regular fare-matrix row. -/
def wInProgress : World :=
  { rides := [rideInProgress],
    drivers := [{ id := 5, user_id := 6, status := "busy" }],
    fares := [fmRegular] }

/-- A decline marker of user 7 for ride 1. -/
def declineMarker7 : NotificationRow :=
  { user_id := 7, ntype := "ride_declined", nstatus := "read", ride_id := some 1 }

/-- A fresh unread ride-request notification for user 7 referencing
ride 1. -/
def newRequest7 : NotificationRow :=
  { user_id := 7, ntype := "ride_request", nstatus := "unread",
    ride_id := some 1, created_at := 5 }

/-- Store where ride 1 is still requested and unassigned, user 7 has
declined it, and a new notification for it has arrived. -/
def wDeclined : World :=
  { rides := [{ id := 1 }], notifications := [declineMarker7, newRequest7] }

/-- An active rental fare-matrix row. -/
def fmRental : FareMatrixRow :=
  { booking_type := "rental", vehicle_type := "sedan", base_fare := 0,
    per_km_rate := 0, platform_fee_percent := 0, minimum_fare := 0,
    hourly_rate := some 150 }

/-- An in-progress rental ride booked for 4 hours. -/
def rideRental : RideRow :=
  { id := 2, status := RideStatus.in_progress, driver_id := some 5,
    booking_type := "rental", rental_hours := some 4 }

/-- Store for the rental completion scenario. -/
def wRental : World :=
  { rides := [rideRental],
    drivers := [{ id := 5, user_id := 6, status := "busy" }],
    fares := [fmRental] }

/-! ### General list lemmas used to reason about guarded updates -/

lemma eq_singleton_of_mem_of_length_le_one {α : Type} {l : List α} {a : α}
    (h : a ∈ l) (hl : l.length ≤ 1) : l = [a] := by
  match l with
  | [] => cases h
  | [b] =>
    have : a = b := by simpa using h
    simp [this]
  | b :: c :: t => simp at hl

lemma map_guard_id {α : Type} {l : List α} {p : α → Bool} {f : α → α}
    (h : ∀ r ∈ l, ¬ p r) : l.map (fun r => if p r then f r else r) = l := by
  have h1 : l.map (fun r => if p r then f r else r) = l.map id :=
    List.map_congr_left (fun a ha => by simp [h a ha])
  simpa using h1

lemma find?_map_guard {α : Type} {l : List α} {p : α → Bool} (f : α → α) {r : α}
    (hf : l.find? p = some r) (hpf : ∀ x, p (f x) = p x) :
    (l.map (fun x => if p x then f x else x)).find? p = some (f r) := by
  induction l with
  | nil => cases hf
  | cons a t ih =>
    by_cases hpa : p a
    · have : r = a := by
        have hc : (a :: t).find? p = some a := List.find?_cons_of_pos t hpa
        rw [hc] at hf
        exact (Option.some.inj hf).symm
      subst this
      simp only [List.map_cons, if_pos hpa]
      exact List.find?_cons_of_pos _ (by simp [hpf, hpa])
    · have hf' : t.find? p = some r := by
        have hc : (a :: t).find? p = t.find? p := List.find?_cons_of_neg t hpa
        rw [hc] at hf
        exact hf
      simp only [List.map_cons, if_neg hpa]
      rw [List.find?_cons_of_neg _ (by simp [hpa])]
      exact ih hf'

lemma filter_key_len_le_one {l : List RideRow}
    (h : (l.map RideRow.id).Nodup) {p : RideRow → Bool}
    (hp : ∀ x y, p x → p y → x.id = y.id) : (l.filter p).length ≤ 1 := by
  induction l with
  | nil => simp
  | cons a t ih =>
    have h' : (t.map RideRow.id).Nodup := (List.nodup_cons.mp h).2
    have ha : a.id ∉ t.map RideRow.id := (List.nodup_cons.mp h).1
    by_cases hpa : p a
    · have ht : t.filter p = [] := by
        refine List.filter_eq_nil_iff.mpr (fun x hx hpx => ?_)
        exact ha (List.mem_map.mpr ⟨x, hx, (hp x a hpx hpa)⟩)
      simp [List.filter_cons, hpa, ht]
    · simpa [List.filter_cons, hpa] using ih h'

lemma filter_eq_singleton_of_find? {l : List RideRow} {p : RideRow → Bool} {r : RideRow}
    (hf : l.find? p = some r)
    (hlen : (l.filter p).length ≤ 1) : l.filter p = [r] :=
  eq_singleton_of_mem_of_length_le_one
    (List.mem_filter.mpr ⟨List.mem_of_find?_eq_some hf, List.find?_some hf⟩) hlen

lemma jsOr_nonneg {x : Option ℚ} {d : ℚ} (hx : ∀ v ∈ x, 0 ≤ v) (hd : 0 ≤ d) :
    0 ≤ jsOr x d := by
  match x with
  | none => simpa [jsOr] using hd
  | some v =>
    by_cases hv : v = 0
    · simpa [jsOr, hv] using hd
    · simpa [jsOr, hv] using hx v rfl

/-! ## Claim theorems -/

lemma acceptRide_world_rides (d : DriverInfo) (hasLoc : Bool) (rid now : Nat)
    (w : World) :
    (acceptRide (some d) hasLoc rid now w []).2.rides = w.rides ∨
    (acceptRide (some d) hasLoc rid now w []).2.rides =
      w.rides.map (fun r => if acceptGuard rid r then acceptUpdate d.id now r else r) := by
  rcases hm : (w.rides.filter (acceptGuard rid)).map (acceptUpdate d.id now)
      with _ | ⟨a, tl⟩
  · cases hb1 : validateCompleteDriverProfile d <;>
      cases hb2 : d.is_verified <;>
        cases hb3 : (d.user_full_name == none || d.user_phone == none : Bool) <;>
          cases hb4 : hasLoc <;>
            simp [acceptRide, acceptRideBody, catchWith, takeOut,
              startLocationSharing, updateRideRows, updateDriverRows,
              hb1, hb2, hb3, hb4, hm]
  · cases tl <;>
      cases hb1 : validateCompleteDriverProfile d <;>
        cases hb2 : d.is_verified <;>
          cases hb3 : (d.user_full_name == none || d.user_phone == none : Bool) <;>
            cases hb4 : hasLoc <;>
              simp [acceptRide, acceptRideBody, catchWith, takeOut,
                startLocationSharing, updateRideRows, updateDriverRows,
                hb1, hb2, hb3, hb4, hm]

/-- C1: `acceptRide` changes a ride row's driver reference and status to
`(driver, accepted)` only under the conditional-update guard
`status = requested AND driver_id IS NULL` — any row of the post-call store
is either an unchanged pre-call row or has become `(accepted, this driver)`
through the guard; and when no row for the requested ride satisfies the
guard at write time the write affects zero rows, the store is unchanged,
and the call evaluates to the normal result `false` (an `Except.ok`, not an
exception). -/
theorem acceptRide_race_lost_noop
    (w : World) (d : DriverInfo) (hasLoc : Bool) (rid now : Nat) :
    ((∀ r ∈ w.rides, r.id = rid →
        ¬(r.status = RideStatus.requested ∧ r.driver_id = none)) →
      acceptRide (some d) hasLoc rid now w [] = (Except.ok false, w)) ∧
    (∀ x ∈ (acceptRide (some d) hasLoc rid now w []).2.rides,
      x ∈ w.rides ∨ (x.status = RideStatus.accepted ∧ x.driver_id = some d.id)) := by
  constructor
  · intro h
    have hg : ∀ r ∈ w.rides, ¬ acceptGuard rid r := by
      intro r hr hacc
      simp only [acceptGuard, Bool.and_eq_true, beq_iff_eq] at hacc
      exact h r hr hacc.1.1 ⟨hacc.1.2, hacc.2⟩
    have hupd : updateRideRows w (acceptGuard rid) (acceptUpdate d.id now) = (w, []) := by
      unfold updateRideRows
      rw [map_guard_id hg, List.filter_eq_nil_iff.mpr hg]
      rfl
    cases hb1 : validateCompleteDriverProfile d <;>
      cases hb2 : d.is_verified <;>
        cases hb3 : (d.user_full_name == none || d.user_phone == none : Bool) <;>
          cases hb4 : hasLoc <;>
            simp [acceptRide, acceptRideBody, catchWith, takeOut,
              startLocationSharing, hb1, hb2, hb3, hb4, hupd]
  · intro x hx
    rcases acceptRide_world_rides d hasLoc rid now w with hw | hw
    · rw [hw] at hx
      exact Or.inl hx
    · rw [hw] at hx
      rcases List.mem_map.mp hx with ⟨y, hy, rfl⟩
      by_cases hg : acceptGuard rid y
      · rw [if_pos hg]
        exact Or.inr ⟨rfl, rfl⟩
      · rw [if_neg hg]
        exact Or.inl hy

/-- Witness for C1: on a store whose only ride is already accepted by
driver 9, the guard fails and `acceptRide` returns `false`, leaving the
store untouched. -/
theorem acceptRide_race_lost_noop_witness :
    (∀ r ∈ wTaken.rides, r.id = 1 →
      ¬(r.status = RideStatus.requested ∧ r.driver_id = none)) ∧
    acceptRide (some dAlice) true 1 3 wTaken [] = (Except.ok false, wTaken) :=
  ⟨by decide, (acceptRide_race_lost_noop wTaken dAlice true 1 3).1 (by decide)⟩

/-- C5: the regular-category fare of `completeRide` equals
`max(subtotal * (1 + platformFeePercent/100), minimumFare)` for
`subtotal = base + distance*perKmRate + duration*perMinuteRate`, and at
distance 12.5 km, duration 30 min, base 50, perKm 10, perMin 0, fee 0%,
minimum 100 the total is 175. -/
theorem regular_fare_formula :
    (∀ (fm : FareMatrixRow) (dist dur : ℚ),
      regularFareCR fm dist dur =
        max ((fm.base_fare + dist * fm.per_km_rate + dur * jsOr fm.per_minute_rate 0)
          * (1 + fm.platform_fee_percent / 100)) fm.minimum_fare) ∧
    regularFareCR fmRegular (25 / 2) 30 = 175 := by
  constructor
  · intro fm dist dur
    unfold regularFareCR
    ring_nf
  · unfold regularFareCR fmRegular jsOr
    norm_num

/-- C2 counterexample: the claim requires `verifyPickupOTP` to transition
only when the ride's status is `driver_arrived`, but on a ride still in
`accepted` whose stored pickup OTP matches, the call succeeds and moves the
ride to `in_progress`: no status guard exists in the code. -/
theorem verifyPickupOTP_ignores_status :
    rideStatusOf wOtpAccepted 1 = some RideStatus.accepted ∧
    (verifyPickupOTP 1 "1234" 7 wOtpAccepted []).1 = Except.ok true ∧
    rideStatusOf (verifyPickupOTP 1 "1234" 7 wOtpAccepted []).2 1 =
      some RideStatus.in_progress :=
  ⟨rfl, rfl, rfl⟩

/-- C2 (amended): `verifyPickupOTP(rideId, code)` transitions the ride to
`in_progress` iff the supplied code equals the stored (non-null) pickup
OTP — the ride's current status is not consulted; on success the stored
OTP is cleared to null, and on any non-matching code (including a cleared
null OTP, which never equals a supplied string) the store is left
unchanged and the call reports failure. -/
theorem verifyPickupOTP_amended (w : World) (rid : Nat) (otp : String) (now : Nat)
    (hu : uniqueRideIdsIn w) :
    ((verifyPickupOTP rid otp now w []).1 = Except.ok true ↔
      ∃ r, findRide w rid = some r ∧ r.pickup_otp = some otp) ∧
    (∀ r, findRide w rid = some r → r.pickup_otp = some otp →
      rideStatusOf (verifyPickupOTP rid otp now w []).2 rid =
        some RideStatus.in_progress ∧
      ridePickupOtpOf (verifyPickupOTP rid otp now w []).2 rid = some none) ∧
    (∀ r, findRide w rid = some r → r.pickup_otp ≠ some otp →
      verifyPickupOTP rid otp now w [] = (Except.ok false, w)) ∧
    (findRide w rid = none → verifyPickupOTP rid otp now w [] = (Except.ok false, w)) := by
  by_cases hn : findRide w rid = none
  · have hres : verifyPickupOTP rid otp now w [] = (Except.ok false, w) := by
      simp [verifyPickupOTP, verifyPickupOTPBody, catchWith, takeOut, hn]
    refine ⟨?_, ?_, ?_, fun _ => hres⟩
    · constructor
      · intro htrue
        rw [hres] at htrue
        simp at htrue
      · rintro ⟨r, hr, -⟩
        rw [hn] at hr
        cases hr
    · intro r hr
      rw [hn] at hr
      cases hr
    · intro r hr
      rw [hn] at hr
      cases hr
  · obtain ⟨r, hfind⟩ := Option.ne_none_iff_exists'.mp hn
    have hp : ∀ x y : RideRow, (x.id == rid) → (y.id == rid) → x.id = y.id := by
      intro x y hx hy
      simp only [beq_iff_eq] at hx hy
      rw [hx, hy]
    have hfilter : w.rides.filter (fun x => x.id == rid) = [r] :=
      filter_eq_singleton_of_find? hfind (filter_key_len_le_one hu hp)
    by_cases hotp : r.pickup_otp = some otp
    · have hbeq : (r.pickup_otp != some otp) = false := by
        simp [hotp]
      have hupd : updateRideRows w (fun x => x.id == rid)
          (fun x => { x with status := RideStatus.in_progress,
                             pickup_otp := none, updated_at := now }) =
          ({ w with rides := w.rides.map (fun x => if x.id == rid
              then { x with status := RideStatus.in_progress,
                            pickup_otp := none, updated_at := now } else x) },
           [{ r with status := RideStatus.in_progress,
                     pickup_otp := none, updated_at := now }]) := by
        unfold updateRideRows
        rw [hfilter]
        rfl
      have hres : verifyPickupOTP rid otp now w [] =
          (Except.ok true,
           { w with rides := w.rides.map (fun x => if x.id == rid
              then { x with status := RideStatus.in_progress,
                            pickup_otp := none, updated_at := now } else x) }) := by
        simp [verifyPickupOTP, verifyPickupOTPBody, catchWith, takeOut, hfind,
          hbeq, hupd]
      have hpost : (w.rides.map (fun x => if x.id == rid
          then { x with status := RideStatus.in_progress,
                        pickup_otp := none, updated_at := now } else x)).find?
            (fun x => x.id == rid) =
          some { r with status := RideStatus.in_progress,
                        pickup_otp := none, updated_at := now } :=
        find?_map_guard _ hfind (fun x => rfl)
      refine ⟨⟨fun _ => ⟨r, hfind, hotp⟩, fun _ => by rw [hres]⟩, ?_, ?_, ?_⟩
      · intro r' hr' _
        rw [hres]
        constructor
        · simp only [rideStatusOf, findRide]
          rw [hpost]
          rfl
        · simp only [ridePickupOtpOf, findRide]
          rw [hpost]
          rfl
      · intro r' hr' hne
        rw [hfind] at hr'
        cases Option.some.inj hr'
        exact absurd hotp hne
      · intro hnone
        rw [hfind] at hnone
        cases hnone
    · have hbeq : (r.pickup_otp != some otp) = true := by
        simp [bne_iff_ne]
        exact hotp
      have hres : verifyPickupOTP rid otp now w [] = (Except.ok false, w) := by
        simp [verifyPickupOTP, verifyPickupOTPBody, catchWith, takeOut, hfind, hbeq]
      refine ⟨?_, ?_, fun _ _ _ => hres, ?_⟩
      · constructor
        · intro htrue
          rw [hres] at htrue
          simp at htrue
        · rintro ⟨r', hr', hotp'⟩
          rw [hfind] at hr'
          cases Option.some.inj hr'
          exact absurd hotp' hotp
      · intro r' hr' hotp'
        rw [hfind] at hr'
        cases Option.some.inj hr'
        exact absurd hotp' hotp
      · intro hnone
        rw [hfind] at hnone
        cases hnone

/-- Witness for the amended C2 at a concrete one-ride store whose pickup
OTP is `"1234"`. -/
theorem verifyPickupOTP_amended_witness :
    ((verifyPickupOTP 1 "1234" 7 wOtpAccepted []).1 = Except.ok true ↔
      ∃ r, findRide wOtpAccepted 1 = some r ∧ r.pickup_otp = some "1234") ∧
    (∀ r, findRide wOtpAccepted 1 = some r → r.pickup_otp = some "1234" →
      rideStatusOf (verifyPickupOTP 1 "1234" 7 wOtpAccepted []).2 1 =
        some RideStatus.in_progress ∧
      ridePickupOtpOf (verifyPickupOTP 1 "1234" 7 wOtpAccepted []).2 1 = some none) ∧
    (∀ r, findRide wOtpAccepted 1 = some r → r.pickup_otp ≠ some "1234" →
      verifyPickupOTP 1 "1234" 7 wOtpAccepted [] = (Except.ok false, wOtpAccepted)) ∧
    (findRide wOtpAccepted 1 = none →
      verifyPickupOTP 1 "1234" 7 wOtpAccepted [] = (Except.ok false, wOtpAccepted)) :=
  verifyPickupOTP_amended wOtpAccepted 1 "1234" 7
    (by show (wOtpAccepted.rides.map RideRow.id).Nodup
        decide)

/-- C3 counterexample: the claim requires `completeRide` to clear the drop
OTP to null, but the part_002 `completeRide` update does not assign
`drop_otp`; completing an `in_progress` ride that holds drop OTP `"5678"`
succeeds and leaves the stored drop OTP equal to `"5678"`. -/
theorem completeRide_keeps_drop_otp :
    rideStatusOf wInProgress 1 = some RideStatus.in_progress ∧
    rideDropOtpOf wInProgress 1 = some (some "5678") ∧
    (∃ t, (completeRide (some dAlice) 1 true 30 10 9 wInProgress []).1 =
      Except.ok { success := true, total_fare := some t }) ∧
    rideDropOtpOf (completeRide (some dAlice) 1 true 30 10 9 wInProgress []).2 1 =
      some (some "5678") :=
  ⟨rfl, rfl, ⟨_, rfl⟩, rfl⟩

/-- C3 (amended): a successful part_002 `completeRide` on an `in_progress`
ride sets the ride's status to `completed`, sets the driver's availability
back to `online`, and returns a fare breakdown whose total fare is
non-negative (given non-negative fare-rule parameters); the stored drop
OTP, however, is left unchanged rather than cleared (the part_001 variant
of `completeRide` is the one that clears it). -/
theorem completeRide_amended
    (w : World) (d : DriverInfo) (rid : Nat) (tripStart : Bool)
    (elapsedMin totalDist : ℚ) (now : Nat)
    (hu : uniqueRideIdsIn w)
    (r : RideRow) (hfind : findRide w rid = some r)
    (hst : r.status = RideStatus.in_progress)
    (fm : FareMatrixRow) (hfm : findFare w r.booking_type r.vehicle_type = some fm)
    (drow : DriverRow) (hdrow : w.drivers.find? (fun x => x.id == d.id) = some drow)
    (hbase : 0 ≤ fm.base_fare) (hpct : 0 ≤ fm.platform_fee_percent)
    (hmin : 0 ≤ fm.minimum_fare)
    (hhr : ∀ v ∈ fm.hourly_rate, 0 ≤ v)
    (hrh : ∀ v ∈ r.rental_hours, 0 ≤ v) :
    ∃ t, (completeRide (some d) rid tripStart elapsedMin totalDist now w []).1 =
        Except.ok { success := true, total_fare := some t } ∧
      0 ≤ t ∧
      rideStatusOf (completeRide (some d) rid tripStart elapsedMin totalDist now w []).2
        rid = some RideStatus.completed ∧
      rideDropOtpOf (completeRide (some d) rid tripStart elapsedMin totalDist now w []).2
        rid = some r.drop_otp ∧
      driverStatusOf (completeRide (some d) rid tripStart elapsedMin totalDist now w []).2
        d.id = some "online" := by
  have hp : ∀ x y : RideRow, (x.id == rid) → (y.id == rid) → x.id = y.id := by
    intro x y hx hy
    simp only [beq_iff_eq] at hx hy
    rw [hx, hy]
  have hfilter : w.rides.filter (fun x => x.id == rid) = [r] :=
    filter_eq_singleton_of_find? hfind (filter_key_len_le_one hu hp)
  have hupd : ∀ f : RideRow → RideRow,
      updateRideRows w (fun x => x.id == rid) f =
        ({ w with rides := w.rides.map (fun x => if x.id == rid then f x else x) },
         [f r]) := by
    intro f
    unfold updateRideRows
    rw [hfilter]
    rfl
  have hres : completeRide (some d) rid tripStart elapsedMin totalDist now w [] =
      (Except.ok { success := true,
                   total_fare := some (totalFareOf fm r tripStart elapsedMin totalDist) },
       { w with
         rides := w.rides.map (fun x => if x.id == rid then
           completeUpdate (totalFareOf fm r tripStart elapsedMin totalDist)
             (actualDistanceOf totalDist) (actualDurationOf tripStart elapsedMin)
             now x else x),
         drivers := w.drivers.map (fun x => if x.id == d.id then
           { x with status := "online",
                    total_rides := some (d.total_rides.getD 0 + 1) } else x) }) := by
    simp [completeRide, completeRideBody, catchWith, takeOut, hfind, hfm, hupd,
      updateDriverRows]
  refine ⟨_, by rw [hres], ?_, ?_, ?_, ?_⟩
  · unfold totalFareOf
    by_cases hbt : r.booking_type == "rental"
    · rw [if_pos hbt]
      have h1 : 0 ≤ jsOr r.rental_hours 4 := jsOr_nonneg hrh (by norm_num)
      have h2 : 0 ≤ jsOr fm.hourly_rate 150 := jsOr_nonneg hhr (by norm_num)
      have h3 : 0 ≤ jsOr r.rental_hours 4 * jsOr fm.hourly_rate 150 :=
        mul_nonneg h1 h2
      unfold rentalFareCR
      exact add_nonneg (add_nonneg hbase h3)
        (div_nonneg (mul_nonneg h3 hpct) (by norm_num))
    · rw [if_neg hbt]
      unfold regularFareCR
      exact le_trans hmin (le_max_right _ _)
  · rw [hres]
    simp only [rideStatusOf, findRide]
    rw [find?_map_guard
      (fun x => completeUpdate (totalFareOf fm r tripStart elapsedMin totalDist)
        (actualDistanceOf totalDist) (actualDurationOf tripStart elapsedMin) now x)
      hfind (fun x => rfl)]
    rfl
  · rw [hres]
    simp only [rideDropOtpOf, findRide]
    rw [find?_map_guard
      (fun x => completeUpdate (totalFareOf fm r tripStart elapsedMin totalDist)
        (actualDistanceOf totalDist) (actualDurationOf tripStart elapsedMin) now x)
      hfind (fun x => rfl)]
    rfl
  · rw [hres]
    simp only [driverStatusOf]
    rw [find?_map_guard
      (fun x => { x with status := "online",
                         total_rides := some (d.total_rides.getD 0 + 1) })
      hdrow (fun x => rfl)]
    rfl

/-- Witness for the amended C3: completing the concrete in-progress ride of
`wInProgress` succeeds, turns the ride `completed`, keeps its drop OTP, and
puts driver 5 back `online` with a non-negative fare. -/
theorem completeRide_amended_witness :
    ∃ t, (completeRide (some dAlice) 1 true 30 10 9 wInProgress []).1 =
        Except.ok { success := true, total_fare := some t } ∧
      0 ≤ t ∧
      rideStatusOf (completeRide (some dAlice) 1 true 30 10 9 wInProgress []).2 1 =
        some RideStatus.completed ∧
      rideDropOtpOf (completeRide (some dAlice) 1 true 30 10 9 wInProgress []).2 1 =
        some rideInProgress.drop_otp ∧
      driverStatusOf (completeRide (some dAlice) 1 true 30 10 9 wInProgress []).2
        dAlice.id = some "online" :=
  completeRide_amended wInProgress dAlice 1 true 30 10 9
    (by show (wInProgress.rides.map RideRow.id).Nodup
        decide)
    rideInProgress rfl rfl fmRegular rfl
    { id := 5, user_id := 6, status := "busy" } rfl
    (by decide) (by decide) (by decide)
    (by intro v hv
        simp [fmRegular] at hv)
    (by intro v hv
        simp [rideInProgress] at hv)

/-- C4: the decline marker of user 7 for ride 1 is present and
`loadPendingRides` duly filters the ride out, but the missed-notification
reconciliation path `processNewNotifications` consults no decline markers
and re-includes ride 1 in the pending offers when a fresh notification
referencing it arrives. -/
theorem declined_ride_reincluded :
    hasDeclineMarker wDeclined 7 1 = true ∧
    loadPendingRides wDeclined 7 = [] ∧
    processNewNotifications wDeclined [newRequest7] [] = [1] :=
  ⟨rfl, rfl, rfl⟩

lemma jsOr_some_zero (v : ℚ) : jsOr (some v) 0 = v := by
  by_cases h : v = 0 <;> simp [jsOr, h]

/-- C6 counterexample: a rental completion through the rides-table
`completeRide` path (booked 4 h at 150/h, actual 300 min) yields total 600:
the path adds no overtime component at all, while the claimed formula —
with any overtime rate, here 180 — demands 780 for the same trip. -/
theorem rental_overtime_missing : 
    (completeRide (some dAlice) 2 true 300 1 9 wRental []).1 =
      Except.ok { success := true,
                  total_fare := some (rentalFareCR fmRental (some 4)) } ∧
    rentalFareCR fmRental (some 4) = 600 ∧
    specRentalTotal 0 150 180 8 10 0 4 300 1 = 780 ∧
    rentalFareCR fmRental (some 4) ≠ specRentalTotal 0 150 180 8 10 0 4 300 1 := by
  have h2 : rentalFareCR fmRental (some 4) = 600 := by
    norm_num [rentalFareCR, jsOr, fmRental]
  have hceil : ((Int.ceil ((300 : ℚ) / 60) : ℤ) : ℚ) = 5 := by norm_num
  have h3 : specRentalTotal 0 150 180 8 10 0 4 300 1 = 780 := by
    unfold specRentalTotal
    rw [hceil]
    norm_num
  exact ⟨rfl, h2, h3, by rw [h2, h3]; norm_num⟩

/-- C6 (amended): rental completions of scheduled bookings
(`handleCompleteTrip`) follow
`total = bookedHours*hourlyRate + overtimeHours*overtimeRate +
extraKm*extraKmRate + driverAllowance` — the claimed formula with a zero
base-fare term — where `overtimeHours = max(0, ceil(actualMinutes/60) -
bookedHours)` and `extraKm = max(0, actualDistance -
bookedHours*kmLimitPerHour)`; in particular booked 4 h at rate 150 with 300
actual minutes gives overtime hours 1, contributing exactly one overtime
rate.  Rental completions of regular rides (`completeRide`) instead use
`base + bookedHours*hourlyRate + platform fee` with no overtime or extra-km
component. -/
theorem rentalTC_matches_spec_formula
    (hr ot kl er da bh am dist : ℚ)
    (hhr : hr ≠ 0) (hot : ot ≠ 0) (hkl : kl ≠ 0) (her : er ≠ 0) (hbh : bh ≠ 0) :
    rentalFareTC
        { hourly_rate := some hr, driver_allowance_per_day := some da,
          overtime_rate := some ot, km_limit_per_hour := some kl,
          extra_km_rate := some er } (some bh) am dist =
      specRentalTotal 0 hr ot er kl da bh am dist ∧
    rentalFareTC
        { hourly_rate := some 150, driver_allowance_per_day := some da,
          overtime_rate := some ot, km_limit_per_hour := some kl,
          extra_km_rate := some er } (some 4) 300 dist =
      4 * 150 + 1 * ot + max 0 (dist - 4 * kl) * er + da := by
  constructor
  · unfold rentalFareTC specRentalTotal
    simp only [jsOr_some_zero]
    simp only [jsOr, if_neg hhr, if_neg hot, if_neg hkl, if_neg her, if_neg hbh]
    ring_nf
  · have hceil : ((Int.ceil ((300 : ℚ) / 60) : ℤ) : ℚ) = 5 := by norm_num
    unfold rentalFareTC
    simp only [jsOr_some_zero]
    simp only [jsOr, if_neg hot, if_neg hkl, if_neg her]
    rw [hceil]
    norm_num

/-- Witness for the amended C6 at hourly rate 150, overtime rate 180,
10 km/h limit, 8 per extra km, allowance 0, booked 4 h, 300 actual minutes,
5 km actual distance. -/
theorem rentalTC_matches_spec_formula_witness :
    rentalFareTC
        { hourly_rate := some 150, driver_allowance_per_day := some 0,
          overtime_rate := some 180, km_limit_per_hour := some 10,
          extra_km_rate := some 8 } (some 4) 300 5 =
      specRentalTotal 0 150 180 8 10 0 4 300 5 ∧
    rentalFareTC
        { hourly_rate := some 150, driver_allowance_per_day := some 0,
          overtime_rate := some 180, km_limit_per_hour := some 10,
          extra_km_rate := some 8 } (some 4) 300 5 =
      4 * 150 + 1 * 180 + max 0 (5 - 4 * 10) * 8 + 0 :=
  rentalTC_matches_spec_formula 150 180 10 8 0 4 300 5
    (by decide) (by decide) (by decide) (by decide) (by decide)

/-- C7 counterexample: in the part_002 provider, a failing assigned-ride
read during reconciliation clears the locally held current-ride snapshot to
null instead of preserving it — both for an error result and for a thrown
exception. -/
theorem loadAssignedRideV2_clears_on_failure :
    loadAssignedRideV2 (some rideTaken) (FetchOutcome.errRes "500") = none ∧
    loadAssignedRideV2 (some rideTaken) FetchOutcome.thrown = none ∧
    some rideTaken ≠ (none : Option RideRow) :=
  ⟨rfl, rfl, by simp⟩

/-- C7 (amended): in the part_001 provider `loadAssignedRide` preserves the
prior current-ride snapshot on both failure modes (error result and thrown
exception); the part_002 provider instead clears the snapshot to null on
read failure. -/
theorem loadAssignedRideV1_preserves (prev : Option RideRow) (code : String) :
    loadAssignedRideV1 prev FetchOutcome.thrown = prev ∧
    loadAssignedRideV1 prev (FetchOutcome.errRes code) = prev :=
  ⟨rfl, rfl⟩

lemma catchWith_isOk {α : Type} (x : Except Unit α × World) (fb : α) :
    ∃ v, (catchWith x fb).1 = Except.ok v := by
  rcases x with ⟨e, w⟩
  cases e with
  | error e => exact ⟨fb, rfl⟩
  | ok a => exact ⟨a, rfl⟩

/-- C8: every Controller operation — `acceptRide`, `declineRide`,
`markDriverArrived`, `generatePickupOTP`, `verifyPickupOTP`, `startRide`,
`generateDropOTP`, `completeRide`, `cancelRide` — evaluates to an ordinary
result value (`Except.ok`) for every store state and every schedule of
store-call outcomes, exceptions included: the operation-level `try`/`catch`
converts any failure into `false`, `null` or `{success: false}`, and no
exception reaches the caller. -/
theorem controller_ops_never_throw :
    (∀ d hasLoc rid now w s, ∃ v, (acceptRide d hasLoc rid now w s).1 = Except.ok v) ∧
    (∀ uid rid now w s, ∃ v, (declineRide uid rid now w s).1 = Except.ok v) ∧
    (∀ rid now w s, ∃ v, (markDriverArrived rid now w s).1 = Except.ok v) ∧
    (∀ rid r now w s, ∃ v, (generatePickupOTP rid r now w s).1 = Except.ok v) ∧
    (∀ rid otp now w s, ∃ v, (verifyPickupOTP rid otp now w s).1 = Except.ok v) ∧
    (∀ rid now w s, ∃ v, (startRide rid now w s).1 = Except.ok v) ∧
    (∀ rid r now w s, ∃ v, (generateDropOTP rid r now w s).1 = Except.ok v) ∧
    (∀ d rid ts em td now w s, ∃ v, (completeRide d rid ts em td now w s).1 = Except.ok v) ∧
    (∀ d rid reason now w s, ∃ v, (cancelRide d rid reason now w s).1 = Except.ok v) := by
  refine ⟨?_, ?_, ?_, ?_, ?_, ?_, ?_, ?_, ?_⟩
  · intro d hasLoc rid now w s
    cases d with
    | none => exact ⟨false, rfl⟩
    | some dr => exact catchWith_isOk _ _
  · intro uid rid now w s
    cases uid with
    | none => exact ⟨false, rfl⟩
    | some u => exact catchWith_isOk _ _
  · intro rid now w s
    exact catchWith_isOk _ _
  · intro rid r now w s
    exact catchWith_isOk _ _
  · intro rid otp now w s
    exact catchWith_isOk _ _
  · intro rid now w s
    exact catchWith_isOk _ _
  · intro rid r now w s
    exact catchWith_isOk _ _
  · intro d rid ts em td now w s
    exact catchWith_isOk _ _
  · intro d rid reason now w s
    exact catchWith_isOk _ _

/-- C9: for every random draw `r` in `[0, 1)`, the generated OTP value
`floor(1000 + r*9000)` lies in 1000–9999 inclusive (a 4-digit code);
`generatePickupOTP` and `generateDropOTP` return exactly this code and
store it on the ride's respective checkpoint column, overwriting whatever
code was stored there before. -/
theorem otp_generation_range_store_return
    (w : World) (rid : Nat) (r : ℚ) (now : Nat) (h0 : 0 ≤ r) (h1 : r < 1) :
    (1000 ≤ genOtpVal r ∧ genOtpVal r ≤ 9999) ∧
    (generatePickupOTP rid r now w []).1 =
      Except.ok (some (toString (genOtpVal r))) ∧
    (∀ x ∈ (generatePickupOTP rid r now w []).2.rides, x.id = rid →
      x.pickup_otp = some (toString (genOtpVal r))) ∧
    (generateDropOTP rid r now w []).1 =
      Except.ok (some (toString (genOtpVal r))) ∧
    (∀ x ∈ (generateDropOTP rid r now w []).2.rides, x.id = rid →
      x.drop_otp = some (toString (genOtpVal r))) := by
  refine ⟨⟨?_, ?_⟩, rfl, ?_, rfl, ?_⟩
  · rw [genOtpVal, Int.le_floor]
    push_cast
    nlinarith
  · rw [genOtpVal, show (9999 : ℤ) = 10000 - 1 by norm_num, Int.le_sub_one_iff,
      Int.floor_lt]
    push_cast
    nlinarith
  · intro x hx hid
    rcases List.mem_map.mp hx with ⟨y, hy, rfl⟩
    by_cases hyid : (y.id == rid)
    · simp only [if_pos hyid]
    · rw [if_neg hyid] at hid ⊢
      exact absurd (beq_iff_eq.mpr hid) hyid
  · intro x hx hid
    rcases List.mem_map.mp hx with ⟨y, hy, rfl⟩
    by_cases hyid : (y.id == rid)
    · simp only [if_pos hyid]
    · rw [if_neg hyid] at hid ⊢
      exact absurd (beq_iff_eq.mpr hid) hyid

/-- Witness for C9 at the draw `r = 0` on the one-ride store `wOtpAccepted`
(whose ride already holds a prior pickup OTP, exercising the overwrite). -/
theorem otp_generation_range_store_return_witness :
    (1000 ≤ genOtpVal 0 ∧ genOtpVal 0 ≤ 9999) ∧
    (generatePickupOTP 1 0 8 wOtpAccepted []).1 =
      Except.ok (some (toString (genOtpVal 0))) ∧
    (∀ x ∈ (generatePickupOTP 1 0 8 wOtpAccepted []).2.rides, x.id = 1 →
      x.pickup_otp = some (toString (genOtpVal 0))) ∧
    (generateDropOTP 1 0 8 wOtpAccepted []).1 =
      Except.ok (some (toString (genOtpVal 0))) ∧
    (∀ x ∈ (generateDropOTP 1 0 8 wOtpAccepted []).2.rides, x.id = 1 →
      x.drop_otp = some (toString (genOtpVal 0))) :=
  otp_generation_range_store_return wOtpAccepted 1 0 8 (by decide) (by decide)

/-- C10: `declineRide` reports success even when both of its store writes
fail with error results — the notification-cancelling update and the
decline-marker insert are only logged on failure, the store is left
entirely unchanged, and the call still returns `true`, exactly the value
returned when both writes succeed and the decline marker is persisted. -/
theorem declineRide_true_despite_failed_writes
    (w : World) (uid rid now : Nat) :
    declineRide (some uid) rid now w [CallOut.errRes, CallOut.errRes] =
      (Except.ok true, w) ∧
    declineRide (some uid) rid now w [] =
      (Except.ok true,
       insertDeclineMarker (markNotifsCancelled w uid rid) uid rid now) :=
  ⟨rfl, rfl⟩
